import Mathlib

/-!
Shallow embedding of the DiffChecker comparison engine
(src/models/result.py, src/utils/helpers.py, src/validation/schema_checks.py,
src/validation/stats_checks.py, src/validation/row_checks.py).

A pandas DataFrame is modelled as a `Table`: a row count together with an
ordered association list of named `Column`s, each carrying its pandas dtype
and its cells (`Option Val`, `none` being NaN/missing).  Machine numbers are
modelled exactly (`Int`); no claim below depends on floating-point rounding.
-/

namespace DiffChecker

/-- Pandas storage dtypes distinguished by `get_column_type` in
src/utils/helpers.py: integer, float, datetime64, bool, and object
(everything else, in particular string columns). -/
inductive Dtype where
  | int
  | float
  | datetime
  | bool
  | obj
deriving DecidableEq

/-- A concrete (non-missing) cell value. -/
inductive Val where
  | num (i : Int)
  | boolean (b : Bool)
  | str (s : String)
  | ts (t : Int)
deriving DecidableEq

/-- Numeric view of a Python value: numbers are themselves, and Python
booleans compare and aggregate as 0/1 (True == 1 holds in Python). -/
def Val.toNum : Val → Option Int
  | .num i => some i
  | .boolean b => some (if b then 1 else 0)
  | _ => none

/-- Python `==` on concrete values: numeric kinds compare through their
numeric view (so True == 1), everything else by structural equality. -/
def pyEq (a b : Val) : Bool :=
  match a.toNum, b.toNum with
  | some x, some y => x == y
  | _, _ => a == b

/-- Python `str()` of a concrete cell value. -/
def Val.display : Val → String
  | .num i => toString i
  | .boolean b => if b then "True" else "False"
  | .str s => s
  | .ts t => toString t

/-- Python `str()` of a cell; `str(nan)` is the literal string "nan". -/
def pyStr : Option Val → String
  | none => "nan"
  | some v => v.display

/-- A pandas Series: its dtype and its cells in row order. -/
structure Column where
  dtype : Dtype
  values : List (Option Val)
deriving DecidableEq

/-- A pandas DataFrame: `nrows` is `len(df)`, `cols` the ordered named
columns. -/
structure Table where
  nrows : Nat
  cols : List (String × Column)
deriving DecidableEq

/-- The list `df.columns`. -/
def Table.columns (t : Table) : List String :=
  t.cols.map Prod.fst

/-- Column lookup `df[name]` (total; unused default for absent names). -/
def Table.col (t : Table) (name : String) : Column :=
  ((t.cols.find? (fun p => p.1 == name)).map Prod.snd).getD ⟨Dtype.obj, []⟩

/-- Cell access `df[name].iloc[idx]` (total; out of range reads as missing). -/
def Table.cell (t : Table) (name : String) (idx : Nat) : Option Val :=
  (t.col name).values.getD idx none

/-- Well-formed DataFrame: column names are unique and every column has
exactly `nrows` cells. -/
def Table.WF (t : Table) : Prop :=
  t.columns.Nodup ∧ ∀ p ∈ t.cols, p.2.values.length = t.nrows

instance (t : Table) : Decidable t.WF := by
  unfold Table.WF
  infer_instance

/-- Embedding of `is_numeric_column` (src/utils/helpers.py): pandas
`is_numeric_dtype`, which holds for integer, float AND bool dtypes. -/
def is_numeric_column (c : Column) : Bool :=
  match c.dtype with
  | .int => true
  | .float => true
  | .bool => true
  | _ => false

/-- Embedding of `get_column_type` (src/utils/helpers.py): priority-ordered
classification by storage dtype, never by cell contents. -/
def get_column_type (c : Column) : String :=
  match c.dtype with
  | .int => "integer"
  | .float => "float"
  | .datetime => "datetime"
  | .bool => "boolean"
  | .obj => "string"

/-- The `ValidationStatus` enum (src/models/result.py). -/
inductive ValidationStatus where
  | pass
  | warning
  | fail
deriving DecidableEq

/-- One entry of the row-differ `differences` list (src/validation/row_checks.py). -/
structure DiffRecord where
  row_index : Nat
  column : String
  source_value : String
  target_value : String
deriving DecidableEq

/-- One entry of the schema checker `type_mismatches` list. -/
structure TypeMismatch where
  column : String
  source_type : String
  target_type : String
deriving DecidableEq

/-- The numeric-branch per-column stats dict of `validate_column_stats`. -/
structure NumericStatRec where
  column : String
  source_nulls : Nat
  target_nulls : Nat
  source_min : Option Int
  target_min : Option Int
  source_max : Option Int
  target_max : Option Int
  source_sum : Option Int
  target_sum : Option Int
  isMatch : Bool
deriving DecidableEq

/-- The non-numeric-branch per-column stats dict of `validate_column_stats`. -/
structure NonNumericStatRec where
  column : String
  source_nulls : Nat
  target_nulls : Nat
  source_unique : Nat
  target_unique : Nat
  isMatch : Bool
deriving DecidableEq

/-- A per-column stat record; the constructor is the dict's "type" tag. -/
inductive ColStats where
  | numeric (r : NumericStatRec)
  | nonNumeric (r : NonNumericStatRec)
deriving DecidableEq

/-- The "column" field of a stat record. -/
def ColStats.column : ColStats → String
  | .numeric r => r.column
  | .nonNumeric r => r.column

/-- The "type" field of a stat record. -/
def ColStats.typeTag : ColStats → String
  | .numeric _ => "numeric"
  | .nonNumeric _ => "non-numeric"

/-- The "match" field of a stat record. -/
def ColStats.isMatch : ColStats → Bool
  | .numeric r => r.isMatch
  | .nonNumeric r => r.isMatch

/-- Check-specific `details` payloads.  `mismatch_count` is `Option` so that
an absent dict key is distinguishable from a present one. -/
inductive Details where
  | rowDiff (differences : List DiffRecord)
  | stats (stats : List ColStats) (mismatch_count : Option Nat)
  | schema (missing_columns extra_columns common_columns : List String)
      (type_mismatches : List TypeMismatch)
deriving DecidableEq

/-- The "differences" key of a row-differ details payload. -/
def Details.differences : Details → List DiffRecord
  | .rowDiff ds => ds
  | _ => []

/-- The "stats" key of a stats details payload. -/
def Details.statsList : Details → List ColStats
  | .stats s _ => s
  | _ => []

/-- The "mismatch_count" key of a stats details payload (`none` = absent). -/
def Details.mismatch_count : Details → Option Nat
  | .stats _ mc => mc
  | _ => none

/-- The "type_mismatches" key of a schema details payload. -/
def Details.type_mismatches : Details → List TypeMismatch
  | .schema _ _ _ tm => tm
  | _ => []

/-- The `ValidationResult` dataclass (src/models/result.py). -/
structure ValidationResult where
  name : String
  status : ValidationStatus
  summary : String
  details : Details
deriving DecidableEq

/-- Embedding of `compute_overall_status` (src/models/result.py). -/
def compute_overall_status (results : List ValidationResult) : ValidationStatus :=
  let statuses := results.map ValidationResult.status
  if ValidationStatus.fail ∈ statuses then ValidationStatus.fail
  else if ValidationStatus.warning ∈ statuses then ValidationStatus.warning
  else ValidationStatus.pass

/-- Python `sorted` over strings. -/
def pySorted (l : List String) : List String :=
  List.insertionSort (fun a b => a ≤ b) l

/-- Python `sorted(set(l))`: deduplicate and sort ascending. -/
def pySortedSet (l : List String) : List String :=
  pySorted l.dedup

/-- Set difference on column-name lists, as Python `set(l1) - set(l2)`. -/
def setDiff (l1 l2 : List String) : List String :=
  l1.filter (fun s => !(l2.contains s))

/-- Set intersection on column-name lists, as Python `set(l1) & set(l2)`. -/
def setInter (l1 l2 : List String) : List String :=
  l1.filter (fun s => l2.contains s)

/-- Python `set(l1) == set(l2)` on column-name lists. -/
def sameSet (l1 l2 : List String) : Bool :=
  l1.all (fun s => l2.contains s) && l2.all (fun s => l1.contains s)

/-- The comma-joined issue summary of `validate_schema`. -/
def schemaSummary (missing extra : List String) (tm : List TypeMismatch) : String :=
  String.intercalate ", "
    ((if missing.isEmpty then [] else [toString missing.length ++ " missing column(s)"]) ++
     (if extra.isEmpty then [] else [toString extra.length ++ " extra column(s)"]) ++
     (if tm.isEmpty then [] else [toString tm.length ++ " type mismatch(es)"]))

/-- Embedding of `validate_schema` (src/validation/schema_checks.py). -/
def validate_schema (df1 df2 : Table) : ValidationResult :=
  let missing := pySortedSet (setDiff df1.columns df2.columns)
  let extra := pySortedSet (setDiff df2.columns df1.columns)
  let common := pySortedSet (setInter df1.columns df2.columns)
  let type_mismatches := common.filterMap (fun col =>
    let type1 := get_column_type (df1.col col)
    let type2 := get_column_type (df2.col col)
    if type1 ≠ type2 then some ⟨col, type1, type2⟩ else none)
  if !missing.isEmpty || !extra.isEmpty || !type_mismatches.isEmpty then
    ⟨"Schema Validation", ValidationStatus.fail,
      schemaSummary missing extra type_mismatches,
      Details.schema missing extra common type_mismatches⟩
  else
    ⟨"Schema Validation", ValidationStatus.pass, "Schema matches perfectly",
      Details.schema missing extra common type_mismatches⟩

/-- Count of missing cells in a Series: `col.isna().sum()`. -/
def nullCount (c : Column) : Nat :=
  (c.values.filter Option.isNone).length

/-- The non-missing cells of a Series, in row order. -/
def nonNullVals (c : Column) : List Val :=
  c.values.filterMap id

/-- Python `col.isna().all()`: every cell of the Series is missing. -/
def Column.allNull (c : Column) : Bool :=
  (nonNullVals c).isEmpty

/-- The non-missing cells of a numeric-dtype Series read as numbers
(booleans as 0/1, matching pandas aggregation over bool columns). -/
def numericValues (c : Column) : List Int :=
  (nonNullVals c).map (fun v => (Val.toNum v).getD 0)

/-- Skipna minimum: `float(col.min())` guarded by `col.isna().all()`. -/
def minOpt : List Int → Option Int
  | [] => none
  | x :: rest => some (rest.foldl min x)

/-- Skipna maximum: `float(col.max())` guarded by `col.isna().all()`. -/
def maxOpt : List Int → Option Int
  | [] => none
  | x :: rest => some (rest.foldl max x)

/-- Skipna sum: `float(col.sum())` guarded by `col.isna().all()`, so an
all-missing column reports no value rather than 0. -/
def sumOpt : List Int → Option Int
  | [] => none
  | x :: rest => some (x + rest.sum)

/-- The numeric branch of `validate_column_stats`: per-side null count and
skipna min/max/sum, with the match flag requiring all four pairs equal
(`Option` equality: `none` equals only `none`). -/
def numericStatRec (col : String) (c1 c2 : Column) : NumericStatRec :=
  let source_nulls := nullCount c1
  let target_nulls := nullCount c2
  let source_min := minOpt (numericValues c1)
  let target_min := minOpt (numericValues c2)
  let source_max := maxOpt (numericValues c1)
  let target_max := maxOpt (numericValues c2)
  let source_sum := sumOpt (numericValues c1)
  let target_sum := sumOpt (numericValues c2)
  ⟨col, source_nulls, target_nulls, source_min, target_min,
    source_max, target_max, source_sum, target_sum,
    source_nulls == target_nulls && source_min == target_min &&
      source_max == target_max && source_sum == target_sum⟩

/-- The numeric branch record, tagged. -/
def numericStats (col : String) (c1 c2 : Column) : ColStats :=
  ColStats.numeric (numericStatRec col c1 c2)

/-- The non-numeric branch of `validate_column_stats`: per-side null count
and `nunique()` (distinct non-missing values). -/
def nonNumericStats (col : String) (c1 c2 : Column) : ColStats :=
  let source_nulls := nullCount c1
  let target_nulls := nullCount c2
  let source_unique := (nonNullVals c1).dedup.length
  let target_unique := (nonNullVals c2).dedup.length
  ColStats.nonNumeric ⟨col, source_nulls, target_nulls, source_unique, target_unique,
    source_nulls == target_nulls && source_unique == target_unique⟩

/-- The per-column dispatch of `validate_column_stats`: the numeric branch
runs iff `is_numeric_column` holds on both sides. -/
def statRecord (df1 df2 : Table) (col : String) : ColStats :=
  if is_numeric_column (df1.col col) && is_numeric_column (df2.col col) then
    numericStats col (df1.col col) (df2.col col)
  else
    nonNumericStats col (df1.col col) (df2.col col)

/-- Embedding of `validate_column_stats` (src/validation/stats_checks.py).
Note the empty-common-columns branch returns a details dict without a
`mismatch_count` key. -/
def validate_column_stats (df1 df2 : Table) : ValidationResult :=
  let common := pySortedSet (setInter df1.columns df2.columns)
  if common.isEmpty then
    ⟨"Column Statistics", ValidationStatus.warning,
      "No common columns to compare", Details.stats [] none⟩
  else
    let stats_comparison := common.map (statRecord df1 df2)
    let mismatches := (stats_comparison.filter (fun r => !r.isMatch)).length
    if mismatches > 0 then
      ⟨"Column Statistics", ValidationStatus.fail,
        toString mismatches ++ " column(s) with statistical differences",
        Details.stats stats_comparison (some mismatches)⟩
    else
      ⟨"Column Statistics", ValidationStatus.pass,
        "All column statistics match",
        Details.stats stats_comparison (some mismatches)⟩

/-- One iteration of the row-differ's inner loop body: `none` when the pair
of cells raises no difference (both missing, or equal under Python `!=`),
otherwise the appended difference record built from `str()` of each cell. -/
def diffAt (df1 df2 : Table) (p : Nat × String) : Option DiffRecord :=
  let v1 := df1.cell p.2 p.1
  let v2 := df2.cell p.2 p.1
  if v1.isNone && v2.isNone then none
  else if (match v1, v2 with
           | some a, some b => !(pyEq a b)
           | _, _ => true) then
    some ⟨p.1, p.2, pyStr v1, pyStr v2⟩
  else none

/-- The (row index, column name) pairs of one row of the inner column loop
of `validate_row_level`: table 1's columns in order, at a fixed row. -/
def rowPairs (idx : Nat) (cols : List String) : List (Nat × String) :=
  cols.map (fun c => (idx, c))

/-- All (row index, column name) pairs of the nested loops in visit order:
rows 0..n-1, and within each row the columns of table 1 in order. -/
def cellPairs (n : Nat) (cols : List String) : List (Nat × String) :=
  (List.range n).flatMap (fun idx => rowPairs idx cols)

/-- The inner column loop of `validate_row_level` over one row's remaining
cell pairs: append each difference and break as soon as the accumulated
list has reached `max_differences`, checked right after each append. -/
def walk (df1 df2 : Table) (maxd : Nat) :
    List (Nat × String) → List DiffRecord → List DiffRecord
  | [], acc => acc
  | p :: rest, acc =>
    match diffAt df1 df2 p with
    | none => walk df1 df2 maxd rest acc
    | some d =>
      let acc2 := acc ++ [d]
      if maxd ≤ acc2.length then acc2 else walk df1 df2 maxd rest acc2

/-- The outer row loop of `validate_row_level`: run the inner column loop
on each row and, after EVERY row — whether or not that row appended
anything — stop as soon as the accumulated list has reached
`max_differences`.  In particular with `max_differences = 0` the loop
always stops after the first row, even when nothing was found there. -/
def diffRows (df1 df2 : Table) (maxd : Nat) :
    List Nat → List DiffRecord → List DiffRecord
  | [], acc => acc
  | idx :: rest, acc =>
    let acc2 := walk df1 df2 maxd (rowPairs idx df1.columns) acc
    if maxd ≤ acc2.length then acc2 else diffRows df1 df2 maxd rest acc2

/-- The `differences` list accumulated by `validate_row_level` before the
final `[:max_differences]` slice. -/
def findDifferences (df1 df2 : Table) (maxd : Nat) : List DiffRecord :=
  diffRows df1 df2 maxd (List.range df1.nrows) []

/-- The differences of one row under the full uncapped scan. -/
def rowDiffList (df1 df2 : Table) (idx : Nat) : List DiffRecord :=
  (rowPairs idx df1.columns).filterMap (diffAt df1 df2)

/-- The differences the full (uncapped) walk would find, in visit order. -/
def allDiffs (df1 df2 : Table) : List DiffRecord :=
  (cellPairs df1.nrows df1.columns).filterMap (diffAt df1 df2)

/-- Embedding of `validate_row_level` (src/validation/row_checks.py); the
source's `max_differences` parameter defaults to 100 at its call sites. -/
def validate_row_level (df1 df2 : Table) (maxd : Nat) : ValidationResult :=
  if df1.nrows ≠ df2.nrows then
    ⟨"Row Level Differences", ValidationStatus.warning,
      "Cannot compare rows - row counts differ", Details.rowDiff []⟩
  else if !(sameSet df1.columns df2.columns) then
    ⟨"Row Level Differences", ValidationStatus.warning,
      "Cannot compare rows - column names differ", Details.rowDiff []⟩
  else
    let differences := findDifferences df1 df2 maxd
    if differences.isEmpty then
      ⟨"Row Level Differences", ValidationStatus.pass,
        "All rows match perfectly", Details.rowDiff (differences.take maxd)⟩
    else
      ⟨"Row Level Differences", ValidationStatus.fail,
        "Found " ++ toString differences.length ++ " difference(s) (showing first " ++
          toString maxd ++ ")",
        Details.rowDiff (differences.take maxd)⟩

/-! ### Shared lemmas -/

theorem pyEq_refl (a : Val) : pyEq a a = true := by
  unfold pyEq
  cases h : a.toNum <;> simp [h]

theorem sameSet_refl (l : List String) : sameSet l l = true := by
  simp only [sameSet, Bool.and_eq_true, List.all_eq_true]
  exact ⟨fun s hs => List.elem_iff.mpr hs, fun s hs => List.elem_iff.mpr hs⟩

theorem diffAt_self (A : Table) (p : Nat × String) : diffAt A A p = none := by
  unfold diffAt
  cases hv : A.cell p.2 p.1 with
  | none => simp [hv]
  | some a => simp [hv, pyEq_refl]

theorem walk_eq (df1 df2 : Table) (maxd : Nat) (pairs : List (Nat × String)) :
    ∀ acc : List DiffRecord,
      walk df1 df2 maxd pairs acc =
        acc ++ (pairs.filterMap (diffAt df1 df2)).take
          (if maxd ≤ acc.length then 1 else maxd - acc.length) := by
  induction pairs with
  | nil => intro acc; simp [walk]
  | cons p rest ih =>
    intro acc
    cases h : diffAt df1 df2 p with
    | none =>
      rw [List.filterMap_cons_none h]
      simpa only [walk, h] using ih acc
    | some d =>
      rw [List.filterMap_cons_some h]
      simp only [walk, h, List.length_append, List.length_cons, List.length_nil]
      by_cases hstop : maxd ≤ acc.length + 1
      · rw [if_pos (by omega)]
        have hk : (if maxd ≤ acc.length then 1 else maxd - acc.length) = 0 + 1 := by
          split <;> omega
        rw [hk, List.take_succ_cons, List.take_zero]
      · rw [if_neg (by omega), ih (acc ++ [d])]
        have hk : (if maxd ≤ acc.length then 1 else maxd - acc.length)
            = (maxd - (acc ++ [d]).length) + 1 := by
          simp only [List.length_append, List.length_cons, List.length_nil]
          split <;> omega
        have hk2 : (if maxd ≤ (acc ++ [d]).length then 1 else maxd - (acc ++ [d]).length)
            = maxd - (acc ++ [d]).length := by
          simp only [List.length_append, List.length_cons, List.length_nil]
          split <;> omega
        rw [hk, hk2, List.take_succ_cons, List.append_assoc]
        rfl

theorem diffRows_eq (df1 df2 : Table) (maxd : Nat) :
    ∀ (idxs : List Nat) (acc : List DiffRecord), acc.length < maxd →
      diffRows df1 df2 maxd idxs acc =
        acc ++ ((idxs.flatMap (fun idx => rowPairs idx df1.columns)).filterMap
          (diffAt df1 df2)).take (maxd - acc.length) := by
  intro idxs
  induction idxs with
  | nil => intro acc _; simp [diffRows]
  | cons i rest ih =>
    intro acc hacc
    simp only [diffRows]
    rw [walk_eq]
    have hk : (if maxd ≤ acc.length then 1 else maxd - acc.length) = maxd - acc.length := by
      rw [if_neg (by omega)]
    rw [hk, List.flatMap_cons, List.filterMap_append, List.take_append_eq_append_take]
    set fmi := (rowPairs i df1.columns).filterMap (diffAt df1 df2) with hfmi
    have hti : (fmi.take (maxd - acc.length)).length = (maxd - acc.length) ⊓ fmi.length :=
      List.length_take _ _
    by_cases hc : maxd ≤ (acc ++ fmi.take (maxd - acc.length)).length
    · rw [if_pos hc]
      rw [List.length_append] at hc
      have hle : maxd - acc.length ≤ fmi.length := by
        rw [hti, inf_eq_min, min_def] at hc
        split at hc <;> omega
      have h0 : maxd - acc.length - fmi.length = 0 := by omega
      rw [h0, List.take_zero, List.append_nil]
    · rw [if_neg hc]
      rw [List.length_append] at hc
      have hlt : fmi.length < maxd - acc.length := by
        rw [hti, inf_eq_min, min_def] at hc
        split at hc <;> omega
      have hall : fmi.take (maxd - acc.length) = fmi :=
        List.take_of_length_le (by omega)
      rw [hall]
      rw [ih (acc ++ fmi) (by rw [List.length_append]; omega)]
      rw [List.length_append, List.append_assoc]
      have harith : maxd - (acc.length + fmi.length) = maxd - acc.length - fmi.length := by
        omega
      rw [harith]

theorem findDifferences_pos (df1 df2 : Table) (maxd : Nat) (h : 1 ≤ maxd) :
    findDifferences df1 df2 maxd = (allDiffs df1 df2).take maxd := by
  unfold findDifferences
  rw [diffRows_eq df1 df2 maxd (List.range df1.nrows) [] (by simpa using h)]
  simp only [List.length_nil, Nat.sub_zero, List.nil_append]
  rfl

theorem findDifferences_zero (df1 df2 : Table) (h : 1 ≤ df1.nrows) :
    findDifferences df1 df2 0 = (rowDiffList df1 df2 0).take 1 := by
  unfold findDifferences
  obtain ⟨m, hm⟩ : ∃ m, df1.nrows = m + 1 := ⟨df1.nrows - 1, by omega⟩
  rw [hm, List.range_succ_eq_map]
  simp only [diffRows]
  rw [if_pos (Nat.zero_le _), walk_eq]
  simp [rowDiffList]

theorem compute_overall_eq (results : List ValidationResult) :
    compute_overall_status results =
      (if ∃ r ∈ results, r.status = ValidationStatus.fail then ValidationStatus.fail
       else if ∃ r ∈ results, r.status = ValidationStatus.warning then ValidationStatus.warning
       else ValidationStatus.pass) := by
  have hmem : ∀ s : ValidationStatus,
      (s ∈ results.map ValidationResult.status) ↔ ∃ r ∈ results, r.status = s := by
    intro s
    simp [List.mem_map]
  simp only [compute_overall_status]
  by_cases hf : ∃ r ∈ results, r.status = ValidationStatus.fail
  · rw [if_pos ((hmem _).mpr hf), if_pos hf]
  · rw [if_neg (fun hc => hf ((hmem _).mp hc)), if_neg hf]
    by_cases hw : ∃ r ∈ results, r.status = ValidationStatus.warning
    · rw [if_pos ((hmem _).mpr hw), if_pos hw]
    · rw [if_neg (fun hc => hw ((hmem _).mp hc)), if_neg hw]

/-! ### Claims -/

/-- Claim C7: running the Row-Level Differ on a well-formed table A against
A itself yields zero recorded differences and status PASS (in particular a
pair of missing cells produces no difference, so an A containing missing
values still passes). -/
theorem rowLevel_self_pass (A : Table) (maxd : Nat) (_hwf : A.WF) :
    (validate_row_level A A maxd).status = ValidationStatus.pass ∧
    (validate_row_level A A maxd).details.differences = [] := by
  have hfind : findDifferences A A maxd = [] := by
    by_cases hm : maxd = 0
    · subst hm
      by_cases hn : 1 ≤ A.nrows
      · rw [findDifferences_zero A A hn]
        have h2 : rowDiffList A A 0 = [] :=
          List.filterMap_eq_nil_iff.mpr (fun p _ => diffAt_self A p)
        rw [h2, List.take_nil]
      · have hn0 : A.nrows = 0 := by omega
        unfold findDifferences
        rw [hn0]
        rfl
    · rw [findDifferences_pos A A maxd (by omega)]
      have h2 : allDiffs A A = [] :=
        List.filterMap_eq_nil_iff.mpr (fun p _ => diffAt_self A p)
      rw [h2, List.take_nil]
  simp [validate_row_level, sameSet_refl, hfind, Details.differences]

/-- Claim C7 witness. -/
theorem rowLevel_self_pass_witness :
    (validate_row_level ⟨3, [("a", ⟨Dtype.float, [some (Val.num 1), none, some (Val.num 3)]⟩)]⟩
        ⟨3, [("a", ⟨Dtype.float, [some (Val.num 1), none, some (Val.num 3)]⟩)]⟩ 100).status =
      ValidationStatus.pass ∧
    (validate_row_level ⟨3, [("a", ⟨Dtype.float, [some (Val.num 1), none, some (Val.num 3)]⟩)]⟩
        ⟨3, [("a", ⟨Dtype.float, [some (Val.num 1), none, some (Val.num 3)]⟩)]⟩ 100).details.differences = [] :=
  rowLevel_self_pass
    ⟨3, [("a", ⟨Dtype.float, [some (Val.num 1), none, some (Val.num 3)]⟩)]⟩ 100 (by decide)

/-- Claim C9: the aggregated status is FAIL iff some result is FAIL,
WARNING iff none is FAIL and some is WARNING, and PASS iff neither occurs;
consequently it is invariant under permutation of the result list. -/
theorem compute_overall_status_spec (results : List ValidationResult) :
    (compute_overall_status results = ValidationStatus.fail ↔
      ∃ r ∈ results, r.status = ValidationStatus.fail) ∧
    (compute_overall_status results = ValidationStatus.warning ↔
      ((¬ ∃ r ∈ results, r.status = ValidationStatus.fail) ∧
        ∃ r ∈ results, r.status = ValidationStatus.warning)) ∧
    (compute_overall_status results = ValidationStatus.pass ↔
      ((¬ ∃ r ∈ results, r.status = ValidationStatus.fail) ∧
        ¬ ∃ r ∈ results, r.status = ValidationStatus.warning)) ∧
    (∀ results2 : List ValidationResult, results.Perm results2 →
      compute_overall_status results = compute_overall_status results2) := by
  refine ⟨?_, ?_, ?_, ?_⟩
  · rw [compute_overall_eq]
    split
    · next h => simpa using h
    · split <;> simp_all
  · rw [compute_overall_eq]
    split
    · next h => simp_all
    · next h => split <;> simp_all
  · rw [compute_overall_eq]
    split
    · next h => simp_all
    · next h => split <;> simp_all
  · intro results2 hperm
    rw [compute_overall_eq, compute_overall_eq results2]
    have he : ∀ s : ValidationStatus,
        (∃ r ∈ results, r.status = s) ↔ ∃ r ∈ results2, r.status = s := by
      intro s
      constructor
      · rintro ⟨r, hr, hs⟩; exact ⟨r, hperm.mem_iff.mp hr, hs⟩
      · rintro ⟨r, hr, hs⟩; exact ⟨r, hperm.mem_iff.mpr hr, hs⟩
    by_cases hf : ∃ r ∈ results, r.status = ValidationStatus.fail
    · rw [if_pos hf, if_pos ((he _).mp hf)]
    · rw [if_neg hf, if_neg (fun hc => hf ((he _).mpr hc))]
      by_cases hw : ∃ r ∈ results, r.status = ValidationStatus.warning
      · rw [if_pos hw, if_pos ((he _).mp hw)]
      · rw [if_neg hw, if_neg (fun hc => hw ((he _).mpr hc))]

/-- Claim C9 witness. -/
theorem compute_overall_status_spec_witness :
    compute_overall_status
        [⟨"File Validation", ValidationStatus.pass, "ok", Details.rowDiff []⟩,
         ⟨"Schema Validation", ValidationStatus.fail, "bad", Details.rowDiff []⟩] =
      compute_overall_status
        [⟨"Schema Validation", ValidationStatus.fail, "bad", Details.rowDiff []⟩,
         ⟨"File Validation", ValidationStatus.pass, "ok", Details.rowDiff []⟩] :=
  (compute_overall_status_spec
      [⟨"File Validation", ValidationStatus.pass, "ok", Details.rowDiff []⟩,
       ⟨"Schema Validation", ValidationStatus.fail, "bad", Details.rowDiff []⟩]).2.2.2
    [⟨"Schema Validation", ValidationStatus.fail, "bad", Details.rowDiff []⟩,
     ⟨"File Validation", ValidationStatus.pass, "ok", Details.rowDiff []⟩]
    (List.Perm.swap _ _ _)

/-- Claim C6 (amended): when `max_differences ≥ 1` and the two tables pass
the row-count and column-set preconditions but disagree on strictly more
cell differences than `max_differences`, the differ stops early and the
returned `differences` list has exactly `max_differences` entries, with
status FAIL.  (The `max_differences ≥ 1` restriction is forced: at cap 0
the per-row check stops the walk after row 0 even with nothing appended,
so a clean first row yields PASS — see the counterexample.) -/
theorem rowLevel_cap (df1 df2 : Table) (maxd : Nat)
    (hmaxd : 1 ≤ maxd)
    (hrows : df1.nrows = df2.nrows)
    (hcols : sameSet df1.columns df2.columns = true)
    (hmany : maxd < (allDiffs df1 df2).length) :
    (validate_row_level df1 df2 maxd).status = ValidationStatus.fail ∧
    ((validate_row_level df1 df2 maxd).details.differences).length = maxd := by
  have hlen : (findDifferences df1 df2 maxd).length = maxd := by
    rw [findDifferences_pos df1 df2 maxd hmaxd, List.length_take, inf_eq_min, min_def]
    split_ifs <;> omega
  have hne : findDifferences df1 df2 maxd ≠ [] :=
    List.ne_nil_of_length_pos (by omega)
  refine ⟨?_, ?_⟩
  · simp [validate_row_level, hrows, hcols, List.isEmpty_iff, hne]
  · simp only [validate_row_level, hrows, ne_eq, not_true_eq_false, if_false, hcols,
      Bool.not_true, Bool.false_eq_true]
    rw [if_neg (by simp [List.isEmpty_iff, hne])]
    simp only [Details.differences, List.length_take, hlen, inf_eq_min, min_def]
    split_ifs <;> omega

/-- Claim C6 counterexample: with `max_differences = 0`, a clean first row
and one true difference in the second row (so strictly more differences
than the cap), the differ returns PASS with no entries — not FAIL — because
the outer per-row cap check stops the walk after row 0. -/
theorem rowLevel_cap_counterexample :
    (0 : Nat) < (allDiffs ⟨2, [("a", ⟨Dtype.int, [some (Val.num 1), some (Val.num 2)]⟩)]⟩
        ⟨2, [("a", ⟨Dtype.int, [some (Val.num 1), some (Val.num 9)]⟩)]⟩).length ∧
    (validate_row_level ⟨2, [("a", ⟨Dtype.int, [some (Val.num 1), some (Val.num 2)]⟩)]⟩
        ⟨2, [("a", ⟨Dtype.int, [some (Val.num 1), some (Val.num 9)]⟩)]⟩ 0).status =
      ValidationStatus.pass ∧
    ValidationStatus.pass ≠ ValidationStatus.fail ∧
    (validate_row_level ⟨2, [("a", ⟨Dtype.int, [some (Val.num 1), some (Val.num 2)]⟩)]⟩
        ⟨2, [("a", ⟨Dtype.int, [some (Val.num 1), some (Val.num 9)]⟩)]⟩ 0).details.differences
      = [] := by
  decide

/-- Claim C6 witness. -/
theorem rowLevel_cap_witness :
    (validate_row_level
        ⟨2, [("a", ⟨Dtype.int, [some (Val.num 1), some (Val.num 2)]⟩)]⟩
        ⟨2, [("a", ⟨Dtype.int, [some (Val.num 7), some (Val.num 8)]⟩)]⟩ 1).status =
      ValidationStatus.fail ∧
    ((validate_row_level
        ⟨2, [("a", ⟨Dtype.int, [some (Val.num 1), some (Val.num 2)]⟩)]⟩
        ⟨2, [("a", ⟨Dtype.int, [some (Val.num 7), some (Val.num 8)]⟩)]⟩ 1).details.differences).length = 1 :=
  rowLevel_cap
    ⟨2, [("a", ⟨Dtype.int, [some (Val.num 1), some (Val.num 2)]⟩)]⟩
    ⟨2, [("a", ⟨Dtype.int, [some (Val.num 7), some (Val.num 8)]⟩)]⟩ 1
    (by decide) (by decide) (by decide) (by decide)

/-- Claim C10 (amended): with `max_differences = 0` the outer cap check
fires after the first row regardless of appends, so only row 0 is ever
compared.  If row 0 contains a differing cell, the first such cell is
appended before the cap check, giving FAIL with summary "Found 1
difference(s) (showing first 0)" and an empty `differences` list after the
`[:0]` slice; if row 0 is clean the result is PASS ("All rows match
perfectly") even when later rows differ. -/
theorem rowLevel_cap_zero (df1 df2 : Table)
    (hrows : df1.nrows = df2.nrows)
    (hcols : sameSet df1.columns df2.columns = true)
    (hn : 1 ≤ df1.nrows) :
    (rowDiffList df1 df2 0 ≠ [] →
      (validate_row_level df1 df2 0).status = ValidationStatus.fail ∧
      (validate_row_level df1 df2 0).summary = "Found 1 difference(s) (showing first 0)" ∧
      (validate_row_level df1 df2 0).details.differences = []) ∧
    (rowDiffList df1 df2 0 = [] →
      (validate_row_level df1 df2 0).status = ValidationStatus.pass ∧
      (validate_row_level df1 df2 0).summary = "All rows match perfectly" ∧
      (validate_row_level df1 df2 0).details.differences = []) := by
  have hfind : findDifferences df1 df2 0 = (rowDiffList df1 df2 0).take 1 :=
    findDifferences_zero df1 df2 hn
  constructor
  · intro hdiff
    have hpos : 0 < (rowDiffList df1 df2 0).length := List.length_pos.mpr hdiff
    have hlen : (findDifferences df1 df2 0).length = 1 := by
      rw [hfind, List.length_take, inf_eq_min, min_def]
      split_ifs <;> omega
    have hne : findDifferences df1 df2 0 ≠ [] :=
      List.ne_nil_of_length_pos (by omega)
    refine ⟨?_, ?_, ?_⟩
    · simp [validate_row_level, hrows, hcols, List.isEmpty_iff, hne]
    · simp only [validate_row_level, hrows, ne_eq, not_true_eq_false, if_false, hcols,
        Bool.not_true, Bool.false_eq_true]
      rw [if_neg (by simp [List.isEmpty_iff, hne])]
      rw [hlen]
      rfl
    · simp only [validate_row_level, hrows, ne_eq, not_true_eq_false, if_false, hcols,
        Bool.not_true, Bool.false_eq_true]
      rw [if_neg (by simp [List.isEmpty_iff, hne])]
      simp [Details.differences]
  · intro hclean
    have hempty : findDifferences df1 df2 0 = [] := by
      rw [hfind, hclean, List.take_nil]
    refine ⟨?_, ?_, ?_⟩ <;>
      simp [validate_row_level, hrows, hcols, List.isEmpty_iff, hempty, Details.differences]

/-- Claim C10 counterexample: tables that differ in a cell of row 1 (row 0
clean), run at `max_differences = 0`, return PASS with summary "All rows
match perfectly" — not FAIL with a found-one summary — because the cap
check also runs after rows that appended nothing. -/
theorem rowLevel_cap_zero_counterexample :
    allDiffs ⟨2, [("a", ⟨Dtype.int, [some (Val.num 5), some (Val.num 6)]⟩)]⟩
        ⟨2, [("a", ⟨Dtype.int, [some (Val.num 5), some (Val.num 7)]⟩)]⟩ ≠ [] ∧
    (validate_row_level ⟨2, [("a", ⟨Dtype.int, [some (Val.num 5), some (Val.num 6)]⟩)]⟩
        ⟨2, [("a", ⟨Dtype.int, [some (Val.num 5), some (Val.num 7)]⟩)]⟩ 0).status =
      ValidationStatus.pass ∧
    (validate_row_level ⟨2, [("a", ⟨Dtype.int, [some (Val.num 5), some (Val.num 6)]⟩)]⟩
        ⟨2, [("a", ⟨Dtype.int, [some (Val.num 5), some (Val.num 7)]⟩)]⟩ 0).summary =
      "All rows match perfectly" := by
  decide

/-- Claim C10 witness. -/
theorem rowLevel_cap_zero_witness :
    (validate_row_level ⟨1, [("a", ⟨Dtype.int, [some (Val.num 1)]⟩)]⟩
        ⟨1, [("a", ⟨Dtype.int, [some (Val.num 2)]⟩)]⟩ 0).status = ValidationStatus.fail ∧
    (validate_row_level ⟨1, [("a", ⟨Dtype.int, [some (Val.num 1)]⟩)]⟩
        ⟨1, [("a", ⟨Dtype.int, [some (Val.num 2)]⟩)]⟩ 0).summary =
      "Found 1 difference(s) (showing first 0)" ∧
    (validate_row_level ⟨1, [("a", ⟨Dtype.int, [some (Val.num 1)]⟩)]⟩
        ⟨1, [("a", ⟨Dtype.int, [some (Val.num 2)]⟩)]⟩ 0).details.differences = [] :=
  (rowLevel_cap_zero
    ⟨1, [("a", ⟨Dtype.int, [some (Val.num 1)]⟩)]⟩
    ⟨1, [("a", ⟨Dtype.int, [some (Val.num 2)]⟩)]⟩
    (by decide) (by decide) (by decide)).1 (by decide)

/-- Claim C2 (amended): every recorded difference carries each side's
Python `str()` rendering of its cell, and a missing cell renders as the
literal string "nan" — not as an empty string. -/
theorem rowLevel_record_display (df1 df2 : Table) (maxd : Nat) (rec : DiffRecord)
    (hrec : rec ∈ (validate_row_level df1 df2 maxd).details.differences) :
    rec.source_value = pyStr (df1.cell rec.column rec.row_index) ∧
    rec.target_value = pyStr (df2.cell rec.column rec.row_index) ∧
    pyStr none = "nan" := by
  have hmem : rec ∈ allDiffs df1 df2 := by
    unfold validate_row_level at hrec
    split at hrec
    · simp [Details.differences] at hrec
    · split at hrec
      · simp [Details.differences] at hrec
      · dsimp only at hrec
        have hmain : rec ∈ (findDifferences df1 df2 maxd).take maxd →
            rec ∈ allDiffs df1 df2 := by
          intro htake
          by_cases hm : maxd = 0
          · subst hm
            simp at htake
          · have h3 : rec ∈ findDifferences df1 df2 maxd :=
              List.take_subset maxd (findDifferences df1 df2 maxd) htake
            rw [findDifferences_pos df1 df2 maxd (by omega)] at h3
            exact List.take_subset _ _ h3
        split at hrec
        · exact hmain hrec
        · exact hmain hrec
  obtain ⟨p, _, hsome⟩ := List.mem_filterMap.mp hmem
  simp only [diffAt] at hsome
  split at hsome
  · exact absurd hsome (by simp)
  · split at hsome
    · injection hsome with h
      subst h
      exact ⟨rfl, rfl, rfl⟩
    · exact absurd hsome (by simp)

/-- Claim C2 counterexample: a missing source cell against a present target
cell is recorded with source value "nan" — a literal placeholder word, not
an empty/absent rendering. -/
theorem rowLevel_record_display_counterexample :
    (validate_row_level ⟨1, [("a", ⟨Dtype.float, [none]⟩)]⟩
        ⟨1, [("a", ⟨Dtype.float, [some (Val.num 5)]⟩)]⟩ 100).details.differences =
      [⟨0, "a", "nan", "5"⟩] ∧ ("nan" : String) ≠ "" := by
  decide

/-- Claim C2 witness. -/
theorem rowLevel_record_display_witness :
    (DiffRecord.mk 0 "a" "nan" "5").source_value =
      pyStr ((⟨1, [("a", ⟨Dtype.float, [none]⟩)]⟩ : Table).cell
        (DiffRecord.mk 0 "a" "nan" "5").column (DiffRecord.mk 0 "a" "nan" "5").row_index) ∧
    (DiffRecord.mk 0 "a" "nan" "5").target_value =
      pyStr ((⟨1, [("a", ⟨Dtype.float, [some (Val.num 5)]⟩)]⟩ : Table).cell
        (DiffRecord.mk 0 "a" "nan" "5").column (DiffRecord.mk 0 "a" "nan" "5").row_index) ∧
    pyStr none = "nan" :=
  rowLevel_record_display ⟨1, [("a", ⟨Dtype.float, [none]⟩)]⟩
    ⟨1, [("a", ⟨Dtype.float, [some (Val.num 5)]⟩)]⟩ 100
    ⟨0, "a", "nan", "5"⟩ (by decide)

/-- Claim C3 (amended): whenever the walk accumulates at least one
difference the summary always carries the "(showing first max_differences)"
note, whether or not the cap truncated the walk: it reads "Found n
difference(s) (showing first m)" with n the accumulated count and m the
cap.  The note is omitted only when zero differences were accumulated, in
which case the summary is "All rows match perfectly".  The last part makes
the non-truncated case of the original claim explicit: a run with
differences that completes the full walk below the cap still carries the
note, with n the total difference count. -/
theorem rowLevel_summary_note (df1 df2 : Table) (maxd : Nat)
    (hrows : df1.nrows = df2.nrows)
    (hcols : sameSet df1.columns df2.columns = true) :
    (findDifferences df1 df2 maxd ≠ [] →
      (validate_row_level df1 df2 maxd).summary =
        "Found " ++ toString (findDifferences df1 df2 maxd).length ++
          " difference(s) (showing first " ++ toString maxd ++ ")") ∧
    (findDifferences df1 df2 maxd = [] →
      (validate_row_level df1 df2 maxd).summary = "All rows match perfectly") ∧
    (1 ≤ maxd → allDiffs df1 df2 ≠ [] → (allDiffs df1 df2).length ≤ maxd →
      (validate_row_level df1 df2 maxd).summary =
        "Found " ++ toString (allDiffs df1 df2).length ++
          " difference(s) (showing first " ++ toString maxd ++ ")") := by
  refine ⟨?_, ?_, ?_⟩
  · intro hne
    simp only [validate_row_level, hrows, ne_eq, not_true_eq_false, if_false, hcols,
      Bool.not_true, Bool.false_eq_true]
    rw [if_neg (by simp [List.isEmpty_iff, hne])]
  · intro hempty
    simp only [validate_row_level, hrows, ne_eq, not_true_eq_false, if_false, hcols,
      Bool.not_true, Bool.false_eq_true]
    rw [if_pos (by simp [List.isEmpty_iff, hempty])]
  · intro hmaxd hne hunder
    have hfind : findDifferences df1 df2 maxd = allDiffs df1 df2 := by
      rw [findDifferences_pos df1 df2 maxd hmaxd]
      exact List.take_of_length_le hunder
    have hne2 : findDifferences df1 df2 maxd ≠ [] := hfind ▸ hne
    simp only [validate_row_level, hrows, ne_eq, not_true_eq_false, if_false, hcols,
      Bool.not_true, Bool.false_eq_true]
    rw [if_neg (by simp [List.isEmpty_iff, hne2])]
    rw [hfind]

/-- Claim C3 counterexample: a run that finds a single difference and
completes the full walk far below the cap of 100 still gets the truncation
note in its summary. -/
theorem rowLevel_summary_note_counterexample :
    (allDiffs ⟨1, [("a", ⟨Dtype.int, [some (Val.num 1)]⟩)]⟩
        ⟨1, [("a", ⟨Dtype.int, [some (Val.num 2)]⟩)]⟩).length = 1 ∧
    (1 : Nat) < 100 ∧
    (validate_row_level ⟨1, [("a", ⟨Dtype.int, [some (Val.num 1)]⟩)]⟩
        ⟨1, [("a", ⟨Dtype.int, [some (Val.num 2)]⟩)]⟩ 100).summary =
      "Found 1 difference(s) (showing first 100)" ∧
    ("Found 1 difference(s) (showing first 100)" : String) ≠ "Found 1 difference(s)" := by
  decide

/-- Claim C3 witness. -/
theorem rowLevel_summary_note_witness :
    (validate_row_level ⟨1, [("a", ⟨Dtype.int, [some (Val.num 3)]⟩)]⟩
        ⟨1, [("a", ⟨Dtype.int, [some (Val.num 4)]⟩)]⟩ 50).summary =
      "Found " ++ toString (allDiffs ⟨1, [("a", ⟨Dtype.int, [some (Val.num 3)]⟩)]⟩
        ⟨1, [("a", ⟨Dtype.int, [some (Val.num 4)]⟩)]⟩).length ++
        " difference(s) (showing first " ++ toString 50 ++ ")" :=
  (rowLevel_summary_note
    ⟨1, [("a", ⟨Dtype.int, [some (Val.num 3)]⟩)]⟩
    ⟨1, [("a", ⟨Dtype.int, [some (Val.num 4)]⟩)]⟩ 50
    (by decide) (by decide)).2.2 (by decide) (by decide) (by decide)

theorem statRecord_column (df1 df2 : Table) (col : String) :
    (statRecord df1 df2 col).column = col := by
  unfold statRecord numericStats numericStatRec nonNumericStats
  split <;> rfl

theorem mem_statsList (df1 df2 : Table) (rec : ColStats)
    (hrec : rec ∈ (validate_column_stats df1 df2).details.statsList) :
    rec = statRecord df1 df2 rec.column := by
  simp only [validate_column_stats] at hrec
  split at hrec
  · simp [Details.statsList] at hrec
  · split at hrec <;>
    · obtain ⟨col, _, heq⟩ := List.mem_map.mp
        (show rec ∈ (pySortedSet (setInter df1.columns df2.columns)).map (statRecord df1 df2)
          from hrec)
      subst heq
      rw [statRecord_column]

theorem statRecord_typeTag (df1 df2 : Table) (col : String) :
    (statRecord df1 df2 col).typeTag = "numeric" ↔
      (is_numeric_column (df1.col col) = true ∧ is_numeric_column (df2.col col) = true) := by
  unfold statRecord
  split
  · next h => simpa [numericStats, ColStats.typeTag] using h
  · next h =>
    simp only [nonNumericStats, ColStats.typeTag]
    constructor
    · intro hc; exact absurd hc (by decide)
    · intro hc
      exact absurd (by simp [hc.1, hc.2]) h

theorem pySortedSet_eq_nil (l : List String) : pySortedSet l = [] ↔ l = [] := by
  unfold pySortedSet pySorted
  constructor
  · intro h
    have hp := List.perm_insertionSort (fun a b => a ≤ b) l.dedup
    rw [h] at hp
    exact (List.dedup_eq_nil l).mp hp.symm.eq_nil
  · intro h
    subst h
    rfl

/-- Claim C1 (amended): a common column is processed by the numeric branch
iff `is_numeric_column` holds of both sides — and `is_numeric_column`
(pandas `is_numeric_dtype`) holds exactly of the columns the classifier
tags integer, float, or BOOLEAN.  Boolean columns therefore take the
numeric branch, diverging from the claim's integer-or-float condition;
datetime and string columns do take the non-numeric branch. -/
theorem stats_numeric_branch (df1 df2 : Table) (rec : ColStats)
    (hrec : rec ∈ (validate_column_stats df1 df2).details.statsList) :
    (rec.typeTag = "numeric" ↔
      (is_numeric_column (df1.col rec.column) = true ∧
        is_numeric_column (df2.col rec.column) = true)) ∧
    (∀ c : Column, is_numeric_column c = true ↔
      (get_column_type c = "integer" ∨ get_column_type c = "float" ∨
        get_column_type c = "boolean")) := by
  constructor
  · rw [mem_statsList df1 df2 rec hrec, statRecord_column]
    exact statRecord_typeTag df1 df2 rec.column
  · intro c
    cases hc : c.dtype <;> simp [is_numeric_column, get_column_type, hc]

/-- Claim C1 counterexample: a boolean column classifies as "boolean" (not
integer or float) under the type classifier, yet the Column-Statistics
checker processes it with the numeric branch. -/
theorem stats_numeric_branch_counterexample :
    get_column_type ⟨Dtype.bool, [some (Val.boolean true)]⟩ = "boolean" ∧
    ("boolean" : String) ≠ "integer" ∧ ("boolean" : String) ≠ "float" ∧
    ((validate_column_stats ⟨1, [("a", ⟨Dtype.bool, [some (Val.boolean true)]⟩)]⟩
        ⟨1, [("a", ⟨Dtype.bool, [some (Val.boolean true)]⟩)]⟩).details.statsList.map
      ColStats.typeTag) = ["numeric"] := by
  decide

/-- Claim C1 witness. -/
theorem stats_numeric_branch_witness :
    is_numeric_column ⟨Dtype.bool, []⟩ = true ↔
      (get_column_type ⟨Dtype.bool, []⟩ = "integer" ∨
        get_column_type ⟨Dtype.bool, []⟩ = "float" ∨
        get_column_type ⟨Dtype.bool, []⟩ = "boolean") :=
  (stats_numeric_branch
      ⟨1, [("a", ⟨Dtype.int, [some (Val.num 1)]⟩)]⟩
      ⟨1, [("a", ⟨Dtype.int, [some (Val.num 1)]⟩)]⟩
      (ColStats.numeric ⟨"a", 0, 0, some 1, some 1, some 1, some 1, some 1, some 1, true⟩)
      (by decide)).2 ⟨Dtype.bool, []⟩

/-- Claim C4 (amended): whenever the common-column set is nonempty the
stats details carry a `mismatch_count` equal to the number of per-column
records whose match flag is false; when it is empty the result is WARNING
with an empty stats list and NO `mismatch_count` entry at all (rather than
one equal to 0). -/
theorem stats_mismatch_count (df1 df2 : Table) :
    (setInter df1.columns df2.columns ≠ [] →
      (validate_column_stats df1 df2).details.mismatch_count =
        some (((validate_column_stats df1 df2).details.statsList.filter
          (fun r => !r.isMatch)).length)) ∧
    (setInter df1.columns df2.columns = [] →
      (validate_column_stats df1 df2).status = ValidationStatus.warning ∧
      (validate_column_stats df1 df2).details.statsList = [] ∧
      (validate_column_stats df1 df2).details.mismatch_count = none) := by
  constructor
  · intro hne
    have hcom : ¬(pySortedSet (setInter df1.columns df2.columns)).isEmpty = true := by
      simp [List.isEmpty_iff, pySortedSet_eq_nil, hne]
    unfold validate_column_stats
    rw [if_neg hcom]
    dsimp only
    split <;> rfl
  · intro heq
    have hcom : (pySortedSet (setInter df1.columns df2.columns)).isEmpty = true := by
      simp [List.isEmpty_iff, pySortedSet_eq_nil, heq]
    unfold validate_column_stats
    rw [if_pos hcom]
    exact ⟨rfl, rfl, rfl⟩

/-- Claim C4 counterexample: with disjoint column sets the result is
WARNING with empty stats, but the details hold no `mismatch_count` entry —
`none`, not `some 0`. -/
theorem stats_mismatch_count_counterexample :
    (validate_column_stats ⟨1, [("a", ⟨Dtype.int, [some (Val.num 1)]⟩)]⟩
        ⟨1, [("b", ⟨Dtype.int, [some (Val.num 1)]⟩)]⟩).status = ValidationStatus.warning ∧
    (validate_column_stats ⟨1, [("a", ⟨Dtype.int, [some (Val.num 1)]⟩)]⟩
        ⟨1, [("b", ⟨Dtype.int, [some (Val.num 1)]⟩)]⟩).details.statsList = [] ∧
    (validate_column_stats ⟨1, [("a", ⟨Dtype.int, [some (Val.num 1)]⟩)]⟩
        ⟨1, [("b", ⟨Dtype.int, [some (Val.num 1)]⟩)]⟩).details.mismatch_count = none ∧
    (none : Option Nat) ≠ some 0 := by
  decide

/-- Claim C4 witness. -/
theorem stats_mismatch_count_witness :
    (validate_column_stats ⟨1, [("a", ⟨Dtype.int, [some (Val.num 1)]⟩)]⟩
        ⟨1, [("a", ⟨Dtype.int, [some (Val.num 2)]⟩)]⟩).details.mismatch_count =
      some (((validate_column_stats ⟨1, [("a", ⟨Dtype.int, [some (Val.num 1)]⟩)]⟩
        ⟨1, [("a", ⟨Dtype.int, [some (Val.num 2)]⟩)]⟩).details.statsList.filter
          (fun r => !r.isMatch)).length) :=
  (stats_mismatch_count ⟨1, [("a", ⟨Dtype.int, [some (Val.num 1)]⟩)]⟩
    ⟨1, [("a", ⟨Dtype.int, [some (Val.num 2)]⟩)]⟩).1 (by decide)

theorem filter_none_add_filterMap_length (l : List (Option Val)) :
    (l.filter Option.isNone).length + (l.filterMap id).length = l.length := by
  induction l with
  | nil => rfl
  | cons x xs ih =>
    cases x with
    | none =>
      rw [List.filter_cons_of_pos (by rfl), List.filterMap_cons_none rfl]
      simp only [List.length_cons]
      omega
    | some v =>
      rw [List.filter_cons_of_neg (by simp), @List.filterMap_cons_some _ _ id (some v) xs v rfl]
      simp only [List.length_cons]
      omega

theorem nullCount_of_allNull (c : Column) (h : c.allNull = true) :
    nullCount c = c.values.length := by
  simp only [Column.allNull, List.isEmpty_iff] at h
  have h2 : (c.values.filterMap id).length = 0 := by
    rw [show c.values.filterMap id = nonNullVals c from rfl, h]
    rfl
  have h3 := filter_none_add_filterMap_length c.values
  unfold nullCount
  omega

theorem numericValues_of_allNull (c : Column) (h : c.allNull = true) :
    numericValues c = [] := by
  simp only [Column.allNull, List.isEmpty_iff] at h
  simp [numericValues, h]

theorem statRecord_numeric_eq (df1 df2 : Table) (col : String)
    (h : (statRecord df1 df2 col).typeTag = "numeric") :
    statRecord df1 df2 col =
      ColStats.numeric (numericStatRec col (df1.col col) (df2.col col)) := by
  by_cases hc : (is_numeric_column (df1.col col) && is_numeric_column (df2.col col)) = true
  · unfold statRecord
    rw [if_pos hc]
    rfl
  · exfalso
    unfold statRecord at h
    rw [if_neg hc] at h
    simp [nonNumericStats, ColStats.typeTag] at h

/-- Claim C5: in the numeric branch an all-null side reports min, max and
sum as the no-value marker `none`, never 0; the match flag holds iff null
counts, min, max and sum are all equal under `Option` equality, where
`none` equals only itself — hence two all-null sides of equal length match
and an all-null side never matches a side holding any value (in particular
not one whose sum is 0).  The last part ties this to the checker: every
numeric-tagged record of `validate_column_stats` is exactly this record. -/
theorem stats_allnull_marker (col : String) (c1 c2 : Column) :
    (c1.allNull = true →
      (numericStatRec col c1 c2).source_min = none ∧
      (numericStatRec col c1 c2).source_max = none ∧
      (numericStatRec col c1 c2).source_sum = none) ∧
    ((numericStatRec col c1 c2).isMatch = true ↔
      ((numericStatRec col c1 c2).source_nulls = (numericStatRec col c1 c2).target_nulls ∧
       (numericStatRec col c1 c2).source_min = (numericStatRec col c1 c2).target_min ∧
       (numericStatRec col c1 c2).source_max = (numericStatRec col c1 c2).target_max ∧
       (numericStatRec col c1 c2).source_sum = (numericStatRec col c1 c2).target_sum)) ∧
    (c1.allNull = true → c2.allNull = true → c1.values.length = c2.values.length →
      (numericStatRec col c1 c2).isMatch = true) ∧
    (c1.allNull = true → c2.allNull = false →
      (numericStatRec col c1 c2).isMatch = false) ∧
    (∀ df1 df2 : Table, ∀ rec ∈ (validate_column_stats df1 df2).details.statsList,
      rec.typeTag = "numeric" →
        rec = ColStats.numeric
          (numericStatRec rec.column (df1.col rec.column) (df2.col rec.column))) := by
  refine ⟨?_, ?_, ?_, ?_, ?_⟩
  · intro h1
    have hv := numericValues_of_allNull c1 h1
    refine ⟨?_, ?_, ?_⟩ <;> simp [numericStatRec, hv, minOpt, maxOpt, sumOpt]
  · simp [numericStatRec, Bool.and_eq_true, beq_iff_eq, and_assoc]
  · intro h1 h2 hlen
    have hv1 := numericValues_of_allNull c1 h1
    have hv2 := numericValues_of_allNull c2 h2
    have hn1 := nullCount_of_allNull c1 h1
    have hn2 := nullCount_of_allNull c2 h2
    simp [numericStatRec, hv1, hv2, minOpt, maxOpt, sumOpt, hn1, hn2, hlen]
  · intro h1 h2
    have hv1 := numericValues_of_allNull c1 h1
    have hne : numericValues c2 ≠ [] := by
      intro hc
      rw [numericValues, List.map_eq_nil_iff] at hc
      rw [Column.allNull, hc] at h2
      simp at h2
    obtain ⟨x, xs, hx⟩ := List.exists_cons_of_ne_nil hne
    simp [numericStatRec, hv1, sumOpt, hx]
  · intro df1 df2 rec hrec hnum
    have h1 := mem_statsList df1 df2 rec hrec
    rw [h1] at hnum
    rw [h1, statRecord_column]
    exact statRecord_numeric_eq df1 df2 rec.column hnum

/-- Claim C5 witness: an all-null column against a column whose sum is 0. -/
theorem stats_allnull_marker_witness :
    (numericStatRec "a" ⟨Dtype.float, [none]⟩ ⟨Dtype.float, [some (Val.num 0)]⟩).isMatch
      = false :=
  (stats_allnull_marker "a" ⟨Dtype.float, [none]⟩ ⟨Dtype.float, [some (Val.num 0)]⟩).2.2.2.1
    (by decide) (by decide)

/-- Claim C8: the classifier tags by storage dtype, never by contents: for
ALL cell lists, an integer-dtype column is tagged "integer" while an
object-dtype column (e.g. the strings "1","2","3") is tagged "string", and
the Schema checker on two tables sharing the single column "a" with those
dtypes FAILs with exactly one type_mismatch entry for "a". -/
theorem schema_type_dispatch (n1 n2 : Nat) (vals1 vals2 : List (Option Val)) :
    get_column_type ⟨Dtype.int, vals1⟩ = "integer" ∧
    get_column_type ⟨Dtype.obj, vals2⟩ = "string" ∧
    (validate_schema ⟨n1, [("a", ⟨Dtype.int, vals1⟩)]⟩
        ⟨n2, [("a", ⟨Dtype.obj, vals2⟩)]⟩).status = ValidationStatus.fail ∧
    (validate_schema ⟨n1, [("a", ⟨Dtype.int, vals1⟩)]⟩
        ⟨n2, [("a", ⟨Dtype.obj, vals2⟩)]⟩).details.type_mismatches =
      [⟨"a", "integer", "string"⟩] := by
  refine ⟨rfl, rfl, rfl, rfl⟩

end DiffChecker
